import Mathlib

/-!
A shallow embedding of the Digiplay Gaming SDK (digiplay_gaming_sdk.py):
wallet initialization, transaction building and signing, the broadcast
retry loop, token constructors, and the event-polling loop.  Side effects
are made explicit: network submissions and sleeps become trace events,
the in-place mutation performed by the signing routine is modelled by
returning both the post-state of the input object and the returned
object, and the wall-clock timestamp is an explicit argument.
-/

/-- Global settings of the SDK, from the class Config in the source. -/
structure Config where
  RETRY_ATTEMPTS : Nat
  RETRY_DELAY : Nat
  EVENT_POLL_INTERVAL : Nat
deriving DecidableEq, Repr

/-- The default configuration values of the source. -/
def defaultConfig : Config :=
  { RETRY_ATTEMPTS := 3, RETRY_DELAY := 3, EVENT_POLL_INTERVAL := 10 }

/-- A wallet: a private key and a derived address. -/
structure Wallet where
  private_key : String
  address : String
deriving DecidableEq, Repr

/-- Placeholder wallet generation, from Wallet._create_new_wallet. -/
def Wallet.create_new_wallet : String × String :=
  ("securely_generated_private_key", "D8SampleAddress1234567890")

/-- Placeholder address derivation, from Wallet._generate_address_from_key. -/
def Wallet.generate_address_from_key (private_key : String) : String :=
  "D8DerivedAddressFromKey"

/-- Python truthiness of an optional string: None and the empty string are
falsy, every other string is truthy. -/
def pyTruthy (s : Option String) : Bool :=
  match s with
  | some k => k ≠ ""
  | none => false

/-- Wallet construction, from Wallet.__init__: the branch on the supplied
key uses Python truthiness, so a supplied empty string takes the
new-wallet branch. -/
def Wallet.init (private_key : Option String) : Wallet :=
  if pyTruthy private_key then
    let k := private_key.getD ""
    { private_key := k, address := Wallet.generate_address_from_key k }
  else
    { private_key := Wallet.create_new_wallet.1,
      address := Wallet.create_new_wallet.2 }

/-- A transaction record, the dict built by create_transaction.  The
signature key is absent until signing; it is modelled as an Option. -/
structure Transaction where
  fromAddress : String
  toAddress : String
  amount : ℚ
  fee : ℚ
  timestamp : ℤ
  signature : Option String
deriving DecidableEq, Repr

/-- An error surfaced by an SDK operation. -/
structure SdkError where
  msg : String
deriving DecidableEq, Repr

/-- Transaction building, from TransactionManager.create_transaction.  The
function is fallible in the source (it re-raises any exception), so it
returns an Except; the current time is the explicit argument now. -/
def create_transaction (w : Wallet) (to_address : String) (amount : ℚ)
    (fee : ℚ) (now : ℤ) : Except SdkError Transaction :=
  Except.ok
    { fromAddress := w.address, toAddress := to_address, amount := amount,
      fee := fee, timestamp := now, signature := none }

/-- The outcome of TransactionManager.sign_transaction.  The source sets
the signature key on the input dict itself and returns that same dict, so
the model records the post-state of the input object, the state of the
returned object, and whether the returned object is the input object. -/
structure SignOutcome where
  inputAfter : Transaction
  returned : Transaction
  returnedAliasesInput : Bool
deriving DecidableEq, Repr

/-- Transaction signing, from TransactionManager.sign_transaction: the
input dict is mutated in place and returned. -/
def sign_transaction (t : Transaction) : SignOutcome :=
  let t2 := { t with signature := some "signed_with_private_key" }
  { inputAfter := t2, returned := t2, returnedAliasesInput := true }

/-- Observable events of the broadcast retry loop: a network submission
attempt (with its 0-based index) and a sleep of a given duration. -/
inductive BEv where
  | attempt (i : Nat)
  | sleep (seconds : Nat)
deriving DecidableEq, Repr

/-- The error raised when every broadcast attempt has failed, from the
final raise in broadcast_transaction.  The source raises a fresh generic
exception, so the cause field records which underlying error, if any, the
raised error carries. -/
structure BroadcastExhausted where
  msg : String
  cause : Option String
deriving DecidableEq, Repr

/-- Whether a single submission outcome is a failure. -/
def isFail (r : Except String α) : Bool :=
  match r with
  | Except.error _ => true
  | Except.ok _ => false

/-- The body of the retry loop of broadcast_transaction: i is the index of
the next attempt, k the number of loop iterations remaining, endpoint the
remote outcome of each attempt.  A successful attempt returns its parsed
acknowledgment immediately; a failed attempt is followed by a sleep of
the retry delay and the next iteration; an exhausted loop raises a fresh
error with a fixed message and no cause attached. -/
def broadcastGo (delay : Nat) (endpoint : Nat → Except String α) :
    Nat → Nat → List BEv × Except BroadcastExhausted α
  | _, 0 => ([], Except.error { msg := "Transaction broadcast failed.", cause := none })
  | i, k + 1 =>
    match endpoint i with
    | Except.ok a => ([BEv.attempt i], Except.ok a)
    | Except.error _ =>
      (BEv.attempt i :: BEv.sleep delay :: (broadcastGo delay endpoint (i + 1) k).1,
       (broadcastGo delay endpoint (i + 1) k).2)

/-- Broadcast with retry, from TransactionManager.broadcast_transaction:
the loop runs for retry_attempts iterations starting at attempt 0. -/
def broadcast_transaction (retry_attempts delay : Nat)
    (endpoint : Nat → Except String α) :
    List BEv × Except BroadcastExhausted α :=
  broadcastGo delay endpoint 0 retry_attempts

/-- The trace produced by k consecutive failed attempts starting at index
start: each attempt is immediately followed by a sleep of the delay. -/
def retryTrace (delay : Nat) : Nat → Nat → List BEv
  | _, 0 => []
  | start, k + 1 => BEv.attempt start :: BEv.sleep delay :: retryTrace delay (start + 1) k

/-- The number of submission attempts in a broadcast trace. -/
def countAttempts (tr : List BEv) : Nat :=
  tr.countP fun e =>
    match e with
    | BEv.attempt _ => true
    | BEv.sleep _ => false

/-- The number of sleeps in a broadcast trace. -/
def countSleeps (tr : List BEv) : Nat :=
  tr.countP fun e =>
    match e with
    | BEv.attempt _ => false
    | BEv.sleep _ => true

/-- The cause carried by a failed broadcast result, if any. -/
def errCause (r : Except BroadcastExhausted α) : Option String :=
  match r with
  | Except.error e => e.cause
  | Except.ok _ => none

/-- A token record, the dict built by TokenManager.create_token. -/
structure Token where
  issuer : String
  token_name : String
  total_supply : ℤ
  timestamp : ℤ
deriving DecidableEq, Repr

/-- A token transfer record, the dict built by TokenManager.transfer_token. -/
structure TokenTransfer where
  token : Token
  fromAddress : String
  toAddress : String
  amount : ℤ
  timestamp : ℤ
deriving DecidableEq, Repr

/-- Token issuance, from TokenManager.create_token. -/
def create_token (w : Wallet) (token_name : String) (total_supply : ℤ)
    (now : ℤ) : Except SdkError Token :=
  Except.ok
    { issuer := w.address, token_name := token_name,
      total_supply := total_supply, timestamp := now }

/-- Token transfer, from TokenManager.transfer_token. -/
def transfer_token (w : Wallet) (token : Token) (to_address : String)
    (amount : ℤ) (now : ℤ) : Except SdkError TokenTransfer :=
  Except.ok
    { token := token, fromAddress := w.address, toAddress := to_address,
      amount := amount, timestamp := now }

/-- Observable events of the event-polling loop: a fetch of a batch of
events, the dispatch of one fetched event to the handler, and the
inter-cycle sleep.  Each carries the 0-based index of its cycle. -/
inductive PEv where
  | fetch (cycle : Nat)
  | dispatch (cycle : Nat) (event : Nat)
  | sleep (cycle : Nat) (seconds : Nat)
deriving DecidableEq, Repr

/-- The cycle an event of the polling loop belongs to. -/
def PEv.cycle : PEv → Nat
  | PEv.fetch i => i
  | PEv.dispatch i _ => i
  | PEv.sleep i _ => i

/-- The state of a BlockchainEventListener: its running flag. -/
structure ListenerState where
  running : Bool
deriving DecidableEq, Repr

/-- Stopping the listener, from BlockchainEventListener.stop_listening:
the running flag is set to false. -/
def stop_listening (s : ListenerState) : ListenerState :=
  { s with running := false }

/-- The polling loop of BlockchainEventListener.start_listening: while the
running flag is true at the top of the loop, fetch a batch, dispatch each
of its events in order, then sleep for the poll interval.  batches gives
the batch fetched in each cycle; stopDuringSleep i tells whether
stop_listening is invoked during the sleep of cycle i, in which case the
flag read at the top of the next cycle is the stopped one.  fuel bounds
the unbounded source loop so that the model terminates. -/
def pollGo (interval : Nat) (batches : Nat → List Nat)
    (stopDuringSleep : Nat → Bool) :
    Nat → Nat → Bool → List PEv
  | 0, _, _ => []
  | fuel + 1, i, running =>
    if running then
      PEv.fetch i :: ((batches i).map fun e => PEv.dispatch i e) ++
        (PEv.sleep i interval ::
          pollGo interval batches stopDuringSleep fuel (i + 1)
            (if stopDuringSleep i then (stop_listening { running := running }).running
             else running))
    else []

/-- Starting the listener, from BlockchainEventListener.start_listening:
the running flag is set to true and the loop begins at cycle 0. -/
def start_listening (interval : Nat) (batches : Nat → List Nat)
    (stopDuringSleep : Nat → Bool) (fuel : Nat) : List PEv :=
  pollGo interval batches stopDuringSleep fuel 0 true

/-! ## Claims about the pure constructors and the wallet -/

/-- Claim C1, counterexample: with every constraint violated at once
(empty recipient, negative amount, negative fee), create_transaction does
not fail; it returns the constructed record. -/
theorem create_transaction_accepts_invalid_input :
    create_transaction (Wallet.init none) "" (-1) (-1) 0 =
      Except.ok
        { fromAddress := "D8SampleAddress1234567890", toAddress := "",
          amount := -1, fee := -1, timestamp := 0, signature := none } :=
  rfl

/-- Claim C1, amended: create_transaction performs no input validation and
never fails: for every input, violated constraints included, it returns
the constructed record. -/
theorem create_transaction_never_fails (w : Wallet) (to_address : String)
    (amount fee : ℚ) (now : ℤ) :
    create_transaction w to_address amount fee now =
      Except.ok
        { fromAddress := w.address, toAddress := to_address,
          amount := amount, fee := fee, timestamp := now,
          signature := none } :=
  rfl

/-- Claim C2, counterexample: signing mutates the input record.  For a
concrete unsigned record the post-state of the input object differs from
the input: its signature, absent before the call, is present after. -/
theorem sign_transaction_mutates_counterexample :
    (sign_transaction
        { fromAddress := "D8SampleAddress1234567890",
          toAddress := "D8RecipientAddress0987654321", amount := 1,
          fee := 1, timestamp := 0, signature := none }).inputAfter ≠
      { fromAddress := "D8SampleAddress1234567890",
        toAddress := "D8RecipientAddress0987654321", amount := 1,
        fee := 1, timestamp := 0, signature := none } := by
  intro h
  have := congrArg Transaction.signature h
  simp [sign_transaction] at this

/-- Claim C2, amended: sign_transaction mutates its input record in place,
setting its signature, and returns that very record; every field other
than the signature is left unchanged, and the signature of the post-state
is present. -/
theorem sign_transaction_in_place (t : Transaction) :
    (sign_transaction t).returned = (sign_transaction t).inputAfter ∧
    (sign_transaction t).returnedAliasesInput = true ∧
    (sign_transaction t).inputAfter.fromAddress = t.fromAddress ∧
    (sign_transaction t).inputAfter.toAddress = t.toAddress ∧
    (sign_transaction t).inputAfter.amount = t.amount ∧
    (sign_transaction t).inputAfter.fee = t.fee ∧
    (sign_transaction t).inputAfter.timestamp = t.timestamp ∧
    (sign_transaction t).inputAfter.signature = some "signed_with_private_key" := by
  refine ⟨rfl, rfl, rfl, rfl, rfl, rfl, rfl, rfl⟩

/-- Claim C6, counterexample: create_token with an empty name and a zero
total supply does not fail, and transfer_token with a zero amount does
not fail; both return the constructed record. -/
theorem token_operations_accept_invalid_input :
    create_token (Wallet.init none) "" 0 0 =
      Except.ok
        { issuer := "D8SampleAddress1234567890", token_name := "",
          total_supply := 0, timestamp := 0 } ∧
    transfer_token (Wallet.init none)
        { issuer := "D8SampleAddress1234567890", token_name := "gold",
          total_supply := 100, timestamp := 0 } "D8RecipientAddress0987654321" 0 0 =
      Except.ok
        { token :=
            { issuer := "D8SampleAddress1234567890", token_name := "gold",
              total_supply := 100, timestamp := 0 },
          fromAddress := "D8SampleAddress1234567890",
          toAddress := "D8RecipientAddress0987654321", amount := 0,
          timestamp := 0 } :=
  ⟨rfl, rfl⟩

/-- Claim C6, amended: create_token and transfer_token perform no input
validation and never fail; they are pure constructors with no network
interaction, returning the constructed record for every input, an empty
name, a non-positive total supply and a non-positive amount included. -/
theorem token_operations_never_fail :
    (∀ (w : Wallet) (token_name : String) (total_supply now : ℤ),
        create_token w token_name total_supply now =
          Except.ok
            { issuer := w.address, token_name := token_name,
              total_supply := total_supply, timestamp := now }) ∧
    (∀ (w : Wallet) (token : Token) (to_address : String) (amount now : ℤ),
        transfer_token w token to_address amount now =
          Except.ok
            { token := token, fromAddress := w.address,
              toAddress := to_address, amount := amount,
              timestamp := now }) :=
  ⟨fun _ _ _ _ => rfl, fun _ _ _ _ _ => rfl⟩

/-- Claim C8: for every valid input (non-empty recipient, non-negative
amount and fee), create_transaction succeeds with a record whose
signature is absent and whose from field is the wallet address. -/
theorem create_transaction_valid_shape (w : Wallet) (to_address : String)
    (amount fee : ℚ) (now : ℤ) (hto : to_address ≠ "") (ha : 0 ≤ amount)
    (hf : 0 ≤ fee) :
    ∃ tx, create_transaction w to_address amount fee now = Except.ok tx ∧
      tx.signature = none ∧ tx.fromAddress = w.address :=
  ⟨_, rfl, rfl, rfl⟩

/-- Witness for claim C8: the hypotheses hold at the example inputs of the
source and the record built there is unsigned and stamped with the
wallet address. -/
theorem create_transaction_valid_shape_witness :
    "D8RecipientAddress0987654321" ≠ "" ∧ (0 : ℚ) ≤ 1 / 10 ∧ (0 : ℚ) ≤ 1 / 1000 ∧
    ∃ tx, create_transaction (Wallet.init none) "D8RecipientAddress0987654321"
        (1 / 10) (1 / 1000) 0 = Except.ok tx ∧
      tx.signature = none ∧ tx.fromAddress = (Wallet.init none).address :=
  ⟨by decide, by norm_num, by norm_num,
    create_transaction_valid_shape (Wallet.init none)
      "D8RecipientAddress0987654321" (1 / 10) (1 / 1000) 0 (by decide)
      (by norm_num) (by norm_num)⟩

/-- Claim C9, counterexample: a wallet built from the supplied empty-string
key does not get the derived address; the truthiness branch of the
constructor treats it as no key and returns the fresh placeholder
wallet. -/
theorem wallet_empty_key_counterexample :
    (Wallet.init (some "")).address = "D8SampleAddress1234567890" ∧
    (Wallet.init (some "")).address ≠ "D8DerivedAddressFromKey" := by
  constructor
  · rfl
  · decide

/-- Claim C9, amended: for every non-empty supplied key the wallet keeps
that key and has the constant derived address, independent of the key
value; a supplied empty string is treated like no key; with no key the
wallet has the placeholder key and address. -/
theorem wallet_init_addresses :
    (∀ k : String, k ≠ "" →
        Wallet.init (some k) =
          { private_key := k, address := "D8DerivedAddressFromKey" }) ∧
    Wallet.init none =
      { private_key := "securely_generated_private_key",
        address := "D8SampleAddress1234567890" } ∧
    Wallet.init (some "") = Wallet.init none := by
  refine ⟨fun k hk => ?_, rfl, rfl⟩
  simp [Wallet.init, pyTruthy, hk, Wallet.generate_address_from_key]

/-- Witness for claim C9: applying the amended statement at a concrete
non-empty key. -/
theorem wallet_init_addresses_witness :
    "my_key" ≠ "" ∧
    Wallet.init (some "my_key") =
      { private_key := "my_key", address := "D8DerivedAddressFromKey" } :=
  ⟨by decide, wallet_init_addresses.1 "my_key" (by decide)⟩

/-! ## The broadcast retry loop -/

/-- If every one of the k attempts starting at index start fails, the loop
produces the alternating attempt-sleep trace and the exhaustion error
with no cause attached. -/
lemma broadcastGo_allFail (d : Nat) (endpoint : Nat → Except String α) :
    ∀ (k start : Nat), (∀ j, j < k → isFail (endpoint (start + j)) = true) →
      broadcastGo d endpoint start k =
        (retryTrace d start k,
         Except.error { msg := "Transaction broadcast failed.", cause := none }) := by
  intro k
  induction k with
  | zero => intro start _; rfl
  | succ k ih =>
    intro start h
    have h0 : isFail (endpoint start) = true := by
      have := h 0 (Nat.succ_pos k)
      simpa using this
    cases hep : endpoint start with
    | ok a => rw [hep] at h0; simp [isFail] at h0
    | error e =>
      have ih' := ih (start + 1) (fun j hj => by
        have hh := h (j + 1) (by omega)
        have heq : start + (j + 1) = start + 1 + j := by omega
        rwa [heq] at hh)
      simp [broadcastGo, hep, ih', retryTrace]

/-- One-step unfolding of the retry loop at a positive iteration count. -/
lemma broadcastGo_succ (d : Nat) (endpoint : Nat → Except String α) (i k : Nat) :
    broadcastGo d endpoint i (k + 1) =
      match endpoint i with
      | Except.ok a => ([BEv.attempt i], Except.ok a)
      | Except.error _ =>
        (BEv.attempt i :: BEv.sleep d :: (broadcastGo d endpoint (i + 1) k).1,
         (broadcastGo d endpoint (i + 1) k).2) :=
  rfl

/-- If the N attempts starting at start fail and attempt start + N
succeeds with acknowledgment a, the loop produces N attempt-sleep pairs,
a final successful attempt, and returns a. -/
lemma broadcastGo_fail_then_ok (d : Nat) (endpoint : Nat → Except String α) (a : α) :
    ∀ (N start : Nat),
      (∀ j, j < N → isFail (endpoint (start + j)) = true) →
      endpoint (start + N) = Except.ok a →
      broadcastGo d endpoint start (N + 1) =
        (retryTrace d start N ++ [BEv.attempt (start + N)], Except.ok a) := by
  intro N
  induction N with
  | zero =>
    intro start _ hok
    simp only [Nat.add_zero] at hok
    simp [broadcastGo, hok, retryTrace]
  | succ N ih =>
    intro start h hok
    have h0 : isFail (endpoint start) = true := by
      have := h 0 (Nat.succ_pos N)
      simpa using this
    cases hep : endpoint start with
    | ok a0 => rw [hep] at h0; simp [isFail] at h0
    | error e =>
      have ih' := ih (start + 1)
        (fun j hj => by
          have hh := h (j + 1) (by omega)
          have heq : start + (j + 1) = start + 1 + j := by omega
          rwa [heq] at hh)
        (by
          have heq : start + 1 + N = start + (N + 1) := by omega
          rw [heq]; exact hok)
      have heq2 : start + 1 + N = start + (N + 1) := by omega
      rw [heq2] at ih'
      rw [broadcastGo_succ, hep]
      simp only [ih']
      simp [retryTrace]

/-- The trace of k failed attempts holds k submission attempts. -/
lemma countAttempts_retryTrace (d : Nat) :
    ∀ (k start : Nat), countAttempts (retryTrace d start k) = k := by
  intro k
  induction k with
  | zero => intro start; rfl
  | succ k ih =>
    intro start
    have hh := ih (start + 1)
    simp [retryTrace, countAttempts, List.countP_cons] at hh ⊢
    omega

/-- The trace of k failed attempts holds k sleeps. -/
lemma countSleeps_retryTrace (d : Nat) :
    ∀ (k start : Nat), countSleeps (retryTrace d start k) = k := by
  intro k
  induction k with
  | zero => intro start; rfl
  | succ k ih =>
    intro start
    have hh := ih (start + 1)
    simp [retryTrace, countSleeps, List.countP_cons] at hh ⊢
    omega

/-- A single successful attempt counts as one attempt. -/
lemma countAttempts_single (n : Nat) : countAttempts [BEv.attempt n] = 1 :=
  rfl

/-- A single successful attempt counts as no sleep. -/
lemma countSleeps_single (n : Nat) : countSleeps [BEv.attempt n] = 0 :=
  rfl

/-- Attempt counts add over concatenated traces. -/
lemma countAttempts_append (l1 l2 : List BEv) :
    countAttempts (l1 ++ l2) = countAttempts l1 + countAttempts l2 :=
  List.countP_append _ _ _

/-- Sleep counts add over concatenated traces. -/
lemma countSleeps_append (l1 l2 : List BEv) :
    countSleeps (l1 ++ l2) = countSleeps l1 + countSleeps l2 :=
  List.countP_append _ _ _

/-- Claim C3: if the first N attempts fail and attempt N succeeds with
acknowledgment a, then with N + 1 configured attempts the broadcast
returns a, performing exactly N + 1 attempts with exactly N sleeps of the
retry delay between them, and no attempt after the successful one: the
trace is N attempt-sleep pairs followed by the final attempt. -/
theorem broadcast_retry_until_success (N d : Nat)
    (endpoint : Nat → Except String α) (a : α)
    (hfail : ∀ j, j < N → isFail (endpoint j) = true)
    (hok : endpoint N = Except.ok a) :
    broadcast_transaction (N + 1) d endpoint =
      (retryTrace d 0 N ++ [BEv.attempt N], Except.ok a) ∧
    countAttempts (broadcast_transaction (N + 1) d endpoint).1 = N + 1 ∧
    countSleeps (broadcast_transaction (N + 1) d endpoint).1 = N := by
  have h1 : broadcast_transaction (N + 1) d endpoint =
      (retryTrace d 0 N ++ [BEv.attempt N], Except.ok a) := by
    have hh := broadcastGo_fail_then_ok d endpoint a N 0
      (fun j hj => by simpa using hfail j hj) (by simpa using hok)
    simpa [broadcast_transaction] using hh
  refine ⟨h1, ?_, ?_⟩
  · rw [h1]
    simp [countAttempts_append, countAttempts_retryTrace, countAttempts_single]
  · rw [h1]
    simp [countSleeps_append, countSleeps_retryTrace, countSleeps_single]

/-- A fake endpoint that fails once with a timeout then accepts. -/
def epOnce : Nat → Except String Nat :=
  fun i => if i = 0 then Except.error "timeout" else Except.ok 7

/-- Witness for claim C3 at N = 1: the fake endpoint fails the first
attempt and accepts the second, and the broadcast performs two attempts
separated by one sleep of the delay and returns the acknowledgment. -/
theorem broadcast_retry_until_success_witness :
    (∀ j, j < 1 → isFail (epOnce j) = true) ∧ epOnce 1 = Except.ok 7 ∧
    broadcast_transaction 2 3 epOnce =
      ([BEv.attempt 0, BEv.sleep 3, BEv.attempt 1], Except.ok 7) := by
  refine ⟨by decide, rfl, ?_⟩
  rw [(broadcast_retry_until_success 1 3 epOnce 7 (by decide) rfl).1]
  rfl

/-- A fake endpoint on which every attempt fails with a connection
error. -/
def epFail : Nat → Except String Nat :=
  fun _ => Except.error "connection refused"

/-- Claim C4, counterexample: when the single configured attempt fails
with a connection error, the raised exhaustion error is a fresh generic
one whose cause is not the underlying error of the last attempt: the
source raises a new exception carrying nothing. -/
theorem broadcast_error_carries_no_cause :
    (broadcast_transaction 1 3 epFail).2 =
      Except.error { msg := "Transaction broadcast failed.", cause := none } ∧
    errCause (broadcast_transaction 1 3 epFail).2 ≠ some "connection refused" := by
  constructor
  · rfl
  · decide

/-- Claim C4, amended: if every attempt fails, the broadcast performs
exactly the configured number of attempts and then fails with the
exhaustion error, a fresh error with a fixed message that does not carry
the underlying error of the last attempt. -/
theorem broadcast_exhaustion (n d : Nat) (endpoint : Nat → Except String α)
    (hfail : ∀ j, j < n → isFail (endpoint j) = true) :
    countAttempts (broadcast_transaction n d endpoint).1 = n ∧
    (broadcast_transaction n d endpoint).2 =
      Except.error { msg := "Transaction broadcast failed.", cause := none } := by
  have h := broadcastGo_allFail d endpoint n 0
    (fun j hj => by simpa using hfail j hj)
  constructor
  · simp [broadcast_transaction, h, countAttempts_retryTrace]
  · simp [broadcast_transaction, h]

/-- Witness for the amended claim C4 at two configured attempts against
the always-failing endpoint. -/
theorem broadcast_exhaustion_witness :
    (∀ j, j < 2 → isFail (epFail j) = true) ∧
    countAttempts (broadcast_transaction 2 3 epFail).1 = 2 ∧
    (broadcast_transaction 2 3 epFail).2 =
      Except.error { msg := "Transaction broadcast failed.", cause := none } :=
  ⟨by decide, broadcast_exhaustion 2 3 epFail (by decide)⟩

/-- Claim C5: with zero configured attempts the broadcast fails at once
with the exhaustion error, performing no submission attempt and no
sleep: its trace is empty. -/
theorem broadcast_zero_attempts (d : Nat) (endpoint : Nat → Except String α) :
    broadcast_transaction 0 d endpoint =
      ([], Except.error { msg := "Transaction broadcast failed.", cause := none }) :=
  rfl

/-- Claim C10: when every attempt fails, the broadcast sleeps for the
retry delay after every one of the n attempts, the final attempt
included, before raising: the trace is n attempt-sleep pairs, ending in a
sleep, and holds exactly n sleeps. -/
theorem broadcast_sleeps_after_every_failed_attempt (n d : Nat)
    (endpoint : Nat → Except String α)
    (hfail : ∀ j, j < n → isFail (endpoint j) = true) :
    (broadcast_transaction n d endpoint).1 = retryTrace d 0 n ∧
    countSleeps (broadcast_transaction n d endpoint).1 = n := by
  have h := broadcastGo_allFail d endpoint n 0
    (fun j hj => by simpa using hfail j hj)
  constructor
  · simp [broadcast_transaction, h]
  · simp [broadcast_transaction, h, countSleeps_retryTrace]

/-- Witness for claim C10 at one configured attempt: the trace is one
attempt followed by one sleep, so the exhausted broadcast waits one extra
delay after its last attempt. -/
theorem broadcast_sleeps_after_every_failed_attempt_witness :
    (∀ j, j < 1 → isFail (epFail j) = true) ∧
    (broadcast_transaction 1 3 epFail).1 = [BEv.attempt 0, BEv.sleep 3] ∧
    countSleeps (broadcast_transaction 1 3 epFail).1 = 1 := by
  refine ⟨by decide, ?_,
    (broadcast_sleeps_after_every_failed_attempt 1 3 epFail (by decide)).2⟩
  rw [(broadcast_sleeps_after_every_failed_attempt 1 3 epFail (by decide)).1]
  rfl

/-! ## The event-polling loop -/

/-- Every event of the polling loop started at cycle i with the running
flag true belongs to a cycle no earlier than i, and no stop was requested
during the sleep of any cycle strictly before its own; with the flag
false the loop produces nothing at all. -/
lemma pollGo_mem_cycle (interval : Nat) (batches : Nat → List Nat)
    (stopDuringSleep : Nat → Bool) :
    ∀ (fuel i : Nat) (running : Bool) (ev : PEv),
      ev ∈ pollGo interval batches stopDuringSleep fuel i running →
      running = true ∧ i ≤ ev.cycle ∧
        ∀ m, i ≤ m → m < ev.cycle → stopDuringSleep m = false := by
  intro fuel
  induction fuel with
  | zero =>
    intro i running ev h
    simp [pollGo] at h
  | succ fuel ih =>
    intro i running ev h
    cases running with
    | false => simp [pollGo] at h
    | true =>
      refine ⟨rfl, ?_⟩
      simp only [pollGo, if_pos, stop_listening, List.mem_cons, List.mem_append,
        List.mem_map] at h
      rcases h with (h | ⟨e, -, h⟩) | (h | h)
      · subst h
        refine ⟨Nat.le_refl _, fun m hm hm2 => ?_⟩
        simp [PEv.cycle] at hm2
        omega
      · subst h
        refine ⟨Nat.le_refl _, fun m hm hm2 => ?_⟩
        simp [PEv.cycle] at hm2
        omega
      · subst h
        refine ⟨Nat.le_refl _, fun m hm hm2 => ?_⟩
        simp [PEv.cycle] at hm2
        omega
      · have hrec := ih (i + 1) _ ev h
        have hstop : stopDuringSleep i = false := by
          rcases hrec with ⟨hrun, -, -⟩
          cases hs : stopDuringSleep i with
          | false => rfl
          | true => rw [hs] at hrun; simp at hrun
        rcases hrec with ⟨-, hle, hall⟩
        refine ⟨by omega, fun m hm hm2 => ?_⟩
        rcases Nat.eq_or_lt_of_le hm with hm | hm
        · rw [hm] at hstop
          exact hstop
        · exact hall m hm hm2

/-- Claim C7: if stop_listening is invoked during the sleep of cycle i0,
then no fetch and no handler dispatch of any strictly later cycle occurs
in the trace of the polling loop: the stopped flag is read at the top of
the loop before the next fetch. -/
theorem stop_listening_no_further_fetch (interval : Nat)
    (batches : Nat → List Nat) (stopDuringSleep : Nat → Bool)
    (fuel i0 j : Nat) (hstop : stopDuringSleep i0 = true) (hj : i0 < j) :
    PEv.fetch j ∉ start_listening interval batches stopDuringSleep fuel ∧
    ∀ e, PEv.dispatch j e ∉ start_listening interval batches stopDuringSleep fuel := by
  constructor
  · intro hmem
    have h := pollGo_mem_cycle interval batches stopDuringSleep fuel 0 true
      (PEv.fetch j) hmem
    have hc : stopDuringSleep i0 = false := by
      refine h.2.2 i0 (Nat.zero_le _) ?_
      simp [PEv.cycle]
      omega
    rw [hstop] at hc
    exact Bool.true_eq_false.mp hc
  · intro e hmem
    have h := pollGo_mem_cycle interval batches stopDuringSleep fuel 0 true
      (PEv.dispatch j e) hmem
    have hc : stopDuringSleep i0 = false := by
      refine h.2.2 i0 (Nat.zero_le _) ?_
      simp [PEv.cycle]
      omega
    rw [hstop] at hc
    exact Bool.true_eq_false.mp hc

/-- Witness for claim C7: with a stop requested during the sleep of cycle
0, the fetch of cycle 1 does not occur, on a loop given enough fuel for
three cycles and a non-empty batch each cycle. -/
theorem stop_listening_no_further_fetch_witness :
    (fun k => decide (k = 0)) 0 = true ∧ 0 < 1 ∧
    PEv.fetch 1 ∉ start_listening 10 (fun _ => [5]) (fun k => decide (k = 0)) 3 :=
  ⟨rfl, by decide,
    (stop_listening_no_further_fetch 10 (fun _ => [5]) (fun k => decide (k = 0))
      3 0 1 rfl (by decide)).1⟩
